import Mathlib

/-
Verification of the resource-reconciliation engine of the
wonders-of-the-world repository: the MongoDB collection provider
(src/infra/mongodb_collection.py) and the orchestration program
(src/infra/main module). Python source is shallowly embedded: each
connection attempt and each remote command is driven by an explicit
environment (an oracle), exceptions are explicit outcome constructors,
and the potentially nonterminating retry loop takes fuel, with a
distinguished out-of-fuel result standing for a loop still running.
-/

/-- beginsWith n s is true when the character list n is an initial segment
of s; building block for the Python substring test. -/
def beginsWith : List Char → List Char → Bool
  | [], _ => true
  | _ :: _, [] => false
  | a :: as, b :: bs => a == b && beginsWith as bs

/-- charsOccur n s is true when the character list n occurs contiguously
somewhere inside s. -/
def charsOccur (n : List Char) : List Char → Bool
  | [] => n.isEmpty
  | c :: cs => beginsWith n (c :: cs) || charsOccur n cs

/-- Python substring containment: needle in s, as used by the source to
classify error messages (bad auth at line 84, already exists at
lines 115 and 151). -/
def containsSub (needle s : String) : Bool :=
  charsOccur needle.data s.data

/-- Outcome of one connection attempt of the provider: the MongoClient
construction (line 64), the sleep, and the admin ping (line 79) taken
together either yield a usable client, raise errors.OperationFailure
with some message, or raise some other Exception. -/
inductive AttemptOutcome where
  | ok
  | opFailure (msg : String)
  | exc (msg : String)
deriving Repr, DecidableEq

/-- Result of the while loop of MongoDBCollectionProvider with respect to
its caller: it returns a client (identified by the index of the attempt
that produced it), returns None, or is still running when the fuel runs
out. The raised constructor stands for an exception escaping the loop;
the translation produces it on no path because both except clauses of
the source (lines 82 and 89) catch and continue. -/
inductive ConnectResult where
  | returned (c : Option Nat)
  | raised (msg : String)
  | outOfFuel
deriving Repr, DecidableEq

/-- Translation of the while loop of connect with retry
(src/infra/mongodb_collection.py lines 59-92). oracle i is the outcome
of attempt number i + 1. iter counts the attempts already made and also
names the client each attempt constructs; attempt is the counter of the
source, incremented only on an OperationFailure whose message contains
bad auth (lines 84-86); on any other OperationFailure or Exception the
source only prints and re-enters the loop (lines 87-90). opened
accumulates the clients constructed by attempts that reached the remote
(ok and opFailure outcomes; an opFailure is a server reply, so a
connection was opened); when the counter reaches max retries the source
prints and returns None (lines 91-92). Returns the loop result, the
total number of attempts made, and the clients opened. -/
def connectLoop (oracle : Nat → AttemptOutcome) (maxRetries : Nat) :
    Nat → Nat → Nat → List Nat → ConnectResult × Nat × List Nat
  | 0, iter, _, opened => (.outOfFuel, iter, opened)
  | fuel + 1, iter, attempt, opened =>
    if attempt < maxRetries then
      match oracle iter with
      | .ok => (.returned (some iter), iter + 1, opened ++ [iter])
      | .opFailure msg =>
        if containsSub "bad auth" msg then
          connectLoop oracle maxRetries fuel (iter + 1) (attempt + 1) (opened ++ [iter])
        else
          connectLoop oracle maxRetries fuel (iter + 1) attempt (opened ++ [iter])
      | .exc _ => connectLoop oracle maxRetries fuel (iter + 1) attempt opened
    else
      (.returned none, iter, opened)

/-- Entry point of connect with retry as create calls it (line 138), with
the default max retries of 5. -/
def connect_with_retry (oracle : Nat → AttemptOutcome) (fuel : Nat) :
    ConnectResult × Nat × List Nat :=
  connectLoop oracle 5 fuel 0 0 []

/-- The attempt raised an OperationFailure whose message contains bad
auth: the one signal the retry loop treats as transient (line 84). -/
def isBadAuth : AttemptOutcome → Bool
  | .opFailure msg => containsSub "bad auth" msg
  | _ => false

/-- The fields of the props dictionary the provider reads; a Python dict
get returns None for a missing key, hence Option. -/
structure Props where
  uri : Option String
  user : Option String
  pwd : Option String
  db : Option String
  coll : Option String
deriving Repr, DecidableEq

/-- Python falsiness of a props value: missing (None) or the empty
string, the condition of line 134. -/
def strFalsy : Option String → Bool
  | none => true
  | some s => s == ""

/-- Outcome of the create command issued to the remote database
(line 143). -/
inductive CmdOutcome where
  | ok
  | opFailure (msg : String)
  | pyMongoError (msg : String)
deriving Repr, DecidableEq

/-- Remote observable state: the list of (database, collection)
namespaces that exist. -/
abbrev RemoteState := List (String × String)

/-- Remote semantics of the MongoDB create-collection command: creating a
new namespace succeeds and records it; creating an existing one raises
OperationFailure (NamespaceExists) whose message contains already
exists, exactly the signal line 151 of the source matches. -/
def mongoCreate (db coll : String) (st : RemoteState) :
    CmdOutcome × RemoteState :=
  if (db, coll) ∈ st then
    (.opFailure ("Collection " ++ db ++ "." ++ coll ++ " already exists."), st)
  else
    (.ok, st ++ [(db, coll)])

/-- Observable outcome of MongoDBCollectionProvider create: a
CreateResult (line 147 or 152), one of the exceptions the method raises
(ValueError line 135, RuntimeError lines 140, 154, 158), an exception
that escaped uncaught, or the connect loop still running at the fuel
bound. -/
inductive CreateOutcome where
  | ok (id : String) (outs : Props)
  | valueError (msg : String)
  | runtimeError (msg : String)
  | raised (msg : String)
  | outOfFuel
deriving Repr, DecidableEq

/-- Everything observable about one run of create: its outcome, how many
connection attempts were made, which clients were opened and which
closed before returning, how many create commands reached the remote,
and the remote state afterwards. -/
structure CreateTrace where
  result : CreateOutcome
  attempts : Nat
  opened : List Nat
  closed : List Nat
  remoteCalls : Nat
  state : RemoteState
deriving Repr, DecidableEq

/-- Translation of MongoDBCollectionProvider create (lines 96-165).
remote gives the behaviour of the create command against the current
remote state, oracle drives the connection attempts, fuel bounds the
retry loop. Paths: missing or empty db or coll raises ValueError before
any connection or remote call (lines 130-135); a None client raises
RuntimeError (lines 139-140); a successful command closes the client
(line 144), returns the CreateResult (line 147) and the finally clause
(lines 159-162) closes again; an OperationFailure containing already
exists returns the same CreateResult (lines 149-152); any other
OperationFailure raises RuntimeError with a trailing period (line 154);
any other PyMongoError raises RuntimeError about the connection
(line 158); the finally clause closes the client on each of these paths.
Clients opened by failed attempts inside the retry loop are not in
scope of the finally clause and are never closed. -/
def create (remote : String → String → RemoteState → CmdOutcome × RemoteState)
    (oracle : Nat → AttemptOutcome) (props : Props) (st : RemoteState)
    (fuel : Nat) : CreateTrace :=
  if strFalsy props.db || strFalsy props.coll then
    { result := .valueError "Database name and collection name must be provided.",
      attempts := 0, opened := [], closed := [], remoteCalls := 0, state := st }
  else
    let dbName := props.db.getD ""
    let collName := props.coll.getD ""
    match connect_with_retry oracle fuel with
    | (.outOfFuel, n, op) =>
      { result := .outOfFuel, attempts := n, opened := op, closed := [],
        remoteCalls := 0, state := st }
    | (.raised msg, n, op) =>
      -- dead branch: the loop catches every exception; kept so that the
      -- hypothetical escape is visibly distinct from the handled paths
      { result := .raised msg, attempts := n, opened := op, closed := [],
        remoteCalls := 0, state := st }
    | (.returned none, n, op) =>
      { result := .runtimeError "Failed to create collection", attempts := n,
        opened := op, closed := [], remoteCalls := 0, state := st }
    | (.returned (some c), n, op) =>
      match remote dbName collName st with
      | (.ok, st2) =>
        { result := .ok (dbName ++ "." ++ collName) props, attempts := n,
          opened := op, closed := [c, c], remoteCalls := 1, state := st2 }
      | (.opFailure msg, st2) =>
        if containsSub "already exists" msg then
          { result := .ok (dbName ++ "." ++ collName) props, attempts := n,
            opened := op, closed := [c], remoteCalls := 1, state := st2 }
        else
          { result := .runtimeError "Failed to create collection.", attempts := n,
            opened := op, closed := [c], remoteCalls := 1, state := st2 }
      | (.pyMongoError _, st2) =>
        { result := .runtimeError "MongoDB connection error.", attempts := n,
          opened := op, closed := [c], remoteCalls := 1, state := st2 }

/-- Props as the orchestration program supplies them: database ww,
collection facts (the defaults of the source configuration). -/
def props0 : Props :=
  { uri := some "mongodb+srv://vector-database.example.mongodb.net",
    user := some "vector-user", pwd := some "v3ct0rp4ssw0rd",
    db := some "ww", coll := some "facts" }

/-- Environment in which every connection attempt succeeds at once. -/
def okOracle : Nat → AttemptOutcome := fun _ => .ok

/-- Environment in which every attempt fails with the transient bad auth
signal. -/
def badAuthOracle : Nat → AttemptOutcome :=
  fun _ => .opFailure "bad auth : authentication failed"

/-- Environment in which every attempt fails with an OperationFailure
that is not an authentication race. -/
def nonAuthOracle : Nat → AttemptOutcome :=
  fun _ => .opFailure "not authorized on admin to execute command"

/-- Environment with one bad auth failure followed by success. -/
def badAuthThenOk : Nat → AttemptOutcome :=
  fun i => if i == 0 then .opFailure "bad auth : authentication failed" else .ok

/-- The five resources the orchestration program declares
(src/infra/main module): the Atlas cluster vector-database, the database
user vector-user, the project IP access-list entry my-current-ip, the
collection created by create_mongodb_collection, and the vector search
index vector-index. -/
inductive Node where
  | cluster
  | user
  | accessEntry
  | collection
  | searchIndex
deriving Repr, DecidableEq

/-- The dependency predecessors of each node exactly as wired in the
source: the user carries depends on [cluster] (line 82); the collection
creation runs inside an apply over the user name and password, the
cluster connection strings and the access-entry id (lines 120-128); the
search index is constructed inside an apply over the collection result
(line 142), reads the cluster name (line 146) and carries depends on
[accessEntry] (line 152). -/
def deps : Node → List Node
  | .cluster => []
  | .user => [.cluster]
  | .accessEntry => []
  | .collection => [.user, .cluster, .accessEntry]
  | .searchIndex => [.collection, .cluster, .accessEntry]

/-- One creation event of a run: which node was attempted and whether it
reached terminal success. -/
structure Event where
  node : Node
  success : Bool
deriving Repr, DecidableEq

/-- done already contains a terminal-success event for node d. -/
def okBefore (done : List Event) (d : Node) : Bool :=
  done.any fun e => e.node == d && e.success

/-- Engine semantics of the declarative wiring: a trace extending done is
valid when each creation event happens only after every dependency
predecessor of its node has already completed with success. -/
def validFrom (done : List Event) : List Event → Bool
  | [] => true
  | e :: rest => (deps e.node).all (okBefore done) && validFrom (done ++ [e]) rest

/-- A valid run of the plan from the empty history. -/
def validTrace (t : List Event) : Bool := validFrom [] t

/-- Outcome of the create command as seen by create_mongodb_collection in
the orchestration program: success, or OperationFailure with a message
(the only exception that function handles, lines 113-117). -/
inductive MainCmdOutcome where
  | ok
  | opFailure (msg : String)
deriving Repr, DecidableEq

/-- Translation of create_mongodb_collection (main module lines 95-117):
True on success, True when the OperationFailure message contains already
exists (lines 113-116), False on any other OperationFailure (line 117). -/
def create_mongodb_collection (r : MainCmdOutcome) : Bool :=
  match r with
  | .ok => true
  | .opFailure msg => containsSub "already exists" msg

/-- Database and collection names with the source defaults. -/
def DB_NAME : String := "ww"

/-- Collection name default of the source. -/
def COLLECTION_NAME : String := "facts"

/-- One vector field definition of the search index (lines 131-139). -/
structure VectorField where
  type : String
  path : String
  numDimensions : Nat
  similarity : String
  quantization : String
deriving Repr, DecidableEq

/-- The field list passed to the search index (lines 131-139). -/
def search_index_fields : List VectorField :=
  [{ type := "vector", path := "embedding", numDimensions := 768,
     similarity := "dotProduct", quantization := "scalar" }]

/-- The arguments of the SearchIndex resource constructed at
lines 142-153. -/
structure SearchIndexArgs where
  name : String
  cluster_name : String
  database : String
  collection_name : String
  type : String
  fields : List VectorField
  wait_for_index_build_completion : Bool
deriving Repr, DecidableEq

/-- Translation of the search index assignment (lines 142-153): inside
the apply over the collection result, the SearchIndex resource is
constructed only when created is true; otherwise the lambda yields None
and no resource is registered — the provider is never invoked for the
node and the node ends as the skipped terminal. -/
def search_index (created : Bool) : Option SearchIndexArgs :=
  if created then
    some { name := "vector-index", cluster_name := "vector-database",
           database := DB_NAME, collection_name := COLLECTION_NAME,
           type := "vectorSearch", fields := search_index_fields,
           wait_for_index_build_completion := true }
  else none

/-- Translation of the final apply of the program (lines 157-163): over
the status and name of the search index, print the readiness message
exactly when the status is STEADY, and otherwise yield None, printing
nothing. The message text is abridged; what matters is when a message
exists at all. -/
def export_message (status name : String) : Option String :=
  if status == "STEADY" then
    some ("Your Vector Search Index " ++ name ++
      " is ready! Start running vector searches now")
  else none

/-- Observed remote state of the search index build. -/
inductive IndexStatus where
  | building
  | steady
  | failed
deriving Repr, DecidableEq

/-- Result of waiting for the index build. -/
inductive PollResult where
  | steady
  | failed
  | readinessTimeout
deriving Repr, DecidableEq

/-- Modelled from the spec: the readiness poller behind the argument
wait for index build completion of the SearchIndex resource (main module
line 151) runs inside the Pulumi mongodbatlas provider and is not part
of this repository; section 4.4 of the spec gives its contract. The loop
polls the remote status at times t, t + pollInterval, ...; Steady and
Failed are terminal and returned as observed; when the polling budget
derived from the timeout is spent while the status is still Building,
the result is ReadinessTimeout. -/
def pollLoop (statusAt : Nat → IndexStatus) (pollInterval : Nat) :
    Nat → Nat → PollResult
  | 0, _ => .readinessTimeout
  | fuel + 1, t =>
    match statusAt t with
    | .steady => .steady
    | .failed => .failed
    | .building => pollLoop statusAt pollInterval fuel (t + pollInterval)

/-- Modelled from the spec: waitForSteady of section 4.4 — poll from
time 0 on a fixed interval until a terminal status or until the timeout
elapses while the status is still Building. -/
def waitForSteady (statusAt : Nat → IndexStatus) (timeout pollInterval : Nat) :
    PollResult :=
  pollLoop statusAt pollInterval (timeout / pollInterval + 1) 0

/-- Environment in which the index never leaves the Building status. -/
def alwaysBuilding : Nat → IndexStatus := fun _ => .building

/-- An occurrence in a suffix is an occurrence in the whole list. -/
theorem charsOccur_append_right (n s t : List Char) (h : charsOccur n t = true) :
    charsOccur n (s ++ t) = true := by
  induction s with
  | nil => simpa using h
  | cons c cs ih => simp [charsOccur, ih]

/-- When every attempt hits the bad auth signal, the loop runs its
counter from a up to maxRetries and returns None after exactly the
remaining maxRetries - a attempts. -/
theorem connectLoop_allBadAuth (oracle : Nat → AttemptOutcome) (m : Nat)
    (h : ∀ i, isBadAuth (oracle i) = true) :
    ∀ fuel a iter opened, a ≤ m → m - a < fuel →
      (connectLoop oracle m fuel iter a opened).1 = ConnectResult.returned none ∧
      (connectLoop oracle m fuel iter a opened).2.1 = iter + (m - a) := by
  intro fuel
  induction fuel with
  | zero => intro a iter opened _ hf; omega
  | succ f ih =>
    intro a iter opened ha hf
    by_cases hlt : a < m
    · have hb := h iter
      cases ho : oracle iter with
      | ok => simp [isBadAuth, ho] at hb
      | exc msg => simp [isBadAuth, ho] at hb
      | opFailure msg =>
        have hbc : containsSub "bad auth" msg = true := by
          simpa [isBadAuth, ho] using hb
        have hrec := ih (a + 1) (iter + 1) (opened ++ [iter]) (by omega) (by omega)
        have hunf : connectLoop oracle m (f + 1) iter a opened =
            connectLoop oracle m f (iter + 1) (a + 1) (opened ++ [iter]) := by
          simp [connectLoop, hlt, ho, hbc]
        rw [hunf]
        exact ⟨hrec.1, by rw [hrec.2]; omega⟩
    · have ha' : a = m := by omega
      subst ha'
      refine ⟨by simp [connectLoop, hlt], ?_⟩
      simp [connectLoop, hlt]

/-- When the first j attempts hit the bad auth signal and attempt j + 1
succeeds, the loop returns the client of attempt j + 1 after exactly
j + 1 attempts, provided the counter stays below maxRetries. -/
theorem connectLoop_success (oracle : Nat → AttemptOutcome) (m : Nat) :
    ∀ j fuel iter a opened,
      (∀ i, i < j → isBadAuth (oracle (iter + i)) = true) →
      oracle (iter + j) = .ok → a + j < m → j < fuel →
      (connectLoop oracle m fuel iter a opened).1 =
        ConnectResult.returned (some (iter + j)) ∧
      (connectLoop oracle m fuel iter a opened).2.1 = iter + j + 1 := by
  intro j
  induction j with
  | zero =>
    intro fuel iter a opened _ hok ham hfuel
    cases fuel with
    | zero => omega
    | succ f =>
      have hlt : a < m := by omega
      have hok' : oracle iter = .ok := by simpa using hok
      constructor <;> simp [connectLoop, hlt, hok']
  | succ j' ih =>
    intro fuel iter a opened hba hok ham hfuel
    cases fuel with
    | zero => omega
    | succ f =>
      have hlt : a < m := by omega
      have hb : isBadAuth (oracle iter) = true := by simpa using hba 0 (by omega)
      cases ho : oracle iter with
      | ok => simp [isBadAuth, ho] at hb
      | exc msg => simp [isBadAuth, ho] at hb
      | opFailure msg =>
        have hbc : containsSub "bad auth" msg = true := by
          simpa [isBadAuth, ho] using hb
        have hba' : ∀ i, i < j' → isBadAuth (oracle (iter + 1 + i)) = true := by
          intro i hi
          have := hba (i + 1) (by omega)
          rwa [show iter + (i + 1) = iter + 1 + i by omega] at this
        have hok' : oracle (iter + 1 + j') = .ok := by
          rwa [show iter + 1 + j' = iter + (j' + 1) by omega]
        have hrec := ih f (iter + 1) (a + 1) (opened ++ [iter]) hba' hok'
          (by omega) (by omega)
        have hunf : connectLoop oracle m (f + 1) iter a opened =
            connectLoop oracle m f (iter + 1) (a + 1) (opened ++ [iter]) := by
          simp [connectLoop, hlt, ho, hbc]
        rw [hunf]
        refine ⟨?_, ?_⟩
        · rw [hrec.1]; congr 2; omega
        · rw [hrec.2]; omega

/-- When every attempt fails with an OperationFailure that does not carry
the bad auth signal, the counter never moves, so the loop consumes all
its fuel without returning and without raising: the source retries such
errors without bound. -/
theorem connectLoop_stuck (oracle : Nat → AttemptOutcome) (m : Nat)
    (h : ∀ i, ∃ msg, oracle i = .opFailure msg ∧
        containsSub "bad auth" msg = false) :
    ∀ fuel iter a opened, a < m →
      (connectLoop oracle m fuel iter a opened).1 = ConnectResult.outOfFuel ∧
      (connectLoop oracle m fuel iter a opened).2.1 = iter + fuel := by
  intro fuel
  induction fuel with
  | zero => intro iter a opened _; exact ⟨rfl, rfl⟩
  | succ f ih =>
    intro iter a opened ha
    obtain ⟨msg, ho, hc⟩ := h iter
    have hrec := ih (iter + 1) a (opened ++ [iter]) ha
    have hunf : connectLoop oracle m (f + 1) iter a opened =
        connectLoop oracle m f (iter + 1) a (opened ++ [iter]) := by
      simp [connectLoop, ha, ho, hc]
    rw [hunf]
    exact ⟨hrec.1, by rw [hrec.2]; omega⟩

/-- No run of the loop body lets an exception escape: both except clauses
of the source catch and continue. -/
theorem connectLoop_no_raise (oracle : Nat → AttemptOutcome) (m : Nat) :
    ∀ fuel iter a opened msg,
      (connectLoop oracle m fuel iter a opened).1 ≠ ConnectResult.raised msg := by
  intro fuel
  induction fuel with
  | zero => intro iter a opened msg; simp [connectLoop]
  | succ f ih =>
    intro iter a opened msg
    by_cases ha : a < m
    · cases ho : oracle iter with
      | ok => simp [connectLoop, ha, ho]
      | opFailure m2 =>
        by_cases hb : containsSub "bad auth" m2 = true
        · have hunf : connectLoop oracle m (f + 1) iter a opened =
              connectLoop oracle m f (iter + 1) (a + 1) (opened ++ [iter]) := by
            simp [connectLoop, ha, ho, hb]
          rw [hunf]; exact ih (iter + 1) (a + 1) (opened ++ [iter]) msg
        · have hb' : containsSub "bad auth" m2 = false := by
            simpa using hb
          have hunf : connectLoop oracle m (f + 1) iter a opened =
              connectLoop oracle m f (iter + 1) a (opened ++ [iter]) := by
            simp [connectLoop, ha, ho, hb']
          rw [hunf]; exact ih (iter + 1) a (opened ++ [iter]) msg
      | exc m2 =>
        have hunf : connectLoop oracle m (f + 1) iter a opened =
            connectLoop oracle m f (iter + 1) a opened := by
          simp [connectLoop, ha, ho]
        rw [hunf]; exact ih (iter + 1) a opened msg
    · simp [connectLoop, ha]


/-- C1: when every attempt to open and ping the session raises the
transient bad auth signal, the connect routine makes exactly max retries
attempts and then fails — it returns None and, through create, the
operation fails as the exhaustion error (the RuntimeError of line 140,
the AuthExhausted of the spec, after the default 5 attempts); when the
attempt succeeds on attempt k with k at most max retries, exactly k
attempts are made before the session of attempt k is returned. -/
theorem c1_retry_bound
    (remote : String → String → RemoteState → CmdOutcome × RemoteState)
    (oracle : Nat → AttemptOutcome) (props : Props) (st : RemoteState)
    (m k fuel : Nat) :
    ((∀ i, isBadAuth (oracle i) = true) → m < fuel →
      (connectLoop oracle m fuel 0 0 []).1 = ConnectResult.returned none ∧
      (connectLoop oracle m fuel 0 0 []).2.1 = m)
  ∧ ((∀ i, i + 1 < k → isBadAuth (oracle i) = true) → oracle (k - 1) = .ok →
      1 ≤ k → k ≤ m → k ≤ fuel →
      (connectLoop oracle m fuel 0 0 []).1 = ConnectResult.returned (some (k - 1)) ∧
      (connectLoop oracle m fuel 0 0 []).2.1 = k)
  ∧ ((∀ i, isBadAuth (oracle i) = true) → 5 < fuel →
      strFalsy props.db = false → strFalsy props.coll = false →
      (create remote oracle props st fuel).result =
        CreateOutcome.runtimeError "Failed to create collection" ∧
      (create remote oracle props st fuel).attempts = 5) := by
  refine ⟨?_, ?_, ?_⟩
  · intro hb hf
    have h := connectLoop_allBadAuth oracle m hb fuel 0 0 [] (by omega) (by omega)
    exact ⟨h.1, by rw [h.2]; omega⟩
  · intro hb hok hk hkm hkf
    have hba : ∀ i, i < k - 1 → isBadAuth (oracle (0 + i)) = true := by
      intro i hi
      simpa using hb i (by omega)
    have hok' : oracle (0 + (k - 1)) = .ok := by simpa using hok
    have h := connectLoop_success oracle m (k - 1) fuel 0 0 [] hba hok'
      (by omega) (by omega)
    refine ⟨?_, ?_⟩
    · rw [h.1]; congr 2; omega
    · rw [h.2]; omega
  · intro hb hf hdb hcoll
    have h := connectLoop_allBadAuth oracle 5 hb fuel 0 0 [] (by omega) (by omega)
    rcases hcw : connect_with_retry oracle fuel with ⟨r, n, op⟩
    have hcw' : connectLoop oracle 5 fuel 0 0 [] = (r, n, op) := hcw
    rw [hcw'] at h
    have hr : r = ConnectResult.returned none := h.1
    have hn : n = 5 := by have := h.2; simpa using this
    subst hr hn
    constructor <;> simp [create, hdb, hcoll, hcw]

/-- C1 witness: with 5 bad auth failures the loop returns None after
exactly 5 attempts and create fails with the exhaustion RuntimeError;
with one bad auth failure followed by success, exactly 2 attempts are
made and the client of attempt 2 is returned. -/
theorem c1_retry_bound_witness :
    ((connectLoop badAuthOracle 5 6 0 0 []).1 = ConnectResult.returned none ∧
     (connectLoop badAuthOracle 5 6 0 0 []).2.1 = 5)
  ∧ ((connectLoop badAuthThenOk 5 9 0 0 []).1 = ConnectResult.returned (some 1) ∧
     (connectLoop badAuthThenOk 5 9 0 0 []).2.1 = 2)
  ∧ ((create mongoCreate badAuthOracle props0 [] 6).result =
       CreateOutcome.runtimeError "Failed to create collection" ∧
     (create mongoCreate badAuthOracle props0 [] 6).attempts = 5) :=
  ⟨(c1_retry_bound mongoCreate badAuthOracle props0 [] 5 0 6).1
      (fun _ => by simp only [badAuthOracle]; decide) (by decide),
   (c1_retry_bound mongoCreate badAuthThenOk props0 [] 5 2 9).2.1
      (fun i hi => by
        have : i = 0 := by omega
        subst this; decide)
      (by decide) (by decide) (by decide) (by decide),
   (c1_retry_bound mongoCreate badAuthOracle props0 [] 5 0 6).2.2
      (fun _ => by simp only [badAuthOracle]; decide) (by decide) (by decide)
      (by decide)⟩

/-- C2: against the claim (and against the Raises clause of the source
docstring), an error other than the bad auth signal is not surfaced and
does not stop the loop: with every attempt raising a non-auth
OperationFailure, the loop is still running after any number of
iterations (it would need max retries counter increments that never
happen), having made one further connection attempt per iteration. -/
theorem c2_nonauth_never_surfaced (fuel : Nat) :
    (connectLoop nonAuthOracle 5 fuel 0 0 []).1 = ConnectResult.outOfFuel ∧
    (connectLoop nonAuthOracle 5 fuel 0 0 []).2.1 = fuel := by
  have h := connectLoop_stuck nonAuthOracle 5
    (fun _ => ⟨"not authorized on admin to execute command", rfl, by decide⟩)
    fuel 0 0 [] (by omega)
  exact ⟨h.1, by rw [h.2]; omega⟩

/-- C10: the connect routine never propagates an exception — no result of
the loop is a raised exception, whatever the environment does — and when
it returns None under valid props, the only connection-related error
create surfaces is the RuntimeError of line 140. -/
theorem c10_no_exception_propagation
    (remote : String → String → RemoteState → CmdOutcome × RemoteState)
    (oracle : Nat → AttemptOutcome) (props : Props) (st : RemoteState)
    (m : Nat) :
    (∀ fuel iter a opened msg,
      (connectLoop oracle m fuel iter a opened).1 ≠ ConnectResult.raised msg)
  ∧ (∀ fuel n op, strFalsy props.db = false → strFalsy props.coll = false →
      connect_with_retry oracle fuel = (ConnectResult.returned none, n, op) →
      (create remote oracle props st fuel).result =
        CreateOutcome.runtimeError "Failed to create collection") := by
  refine ⟨connectLoop_no_raise oracle m, ?_⟩
  intro fuel n op hdb hcoll hcw
  simp [create, hdb, hcoll, hcw]

/-- C10 witness: at the all bad auth environment the loop result is not a
raised exception, and create surfaces the RuntimeError. -/
theorem c10_no_exception_propagation_witness :
    (connectLoop badAuthOracle 5 2 0 0 []).1 ≠ ConnectResult.raised "boom" ∧
    (create mongoCreate badAuthOracle props0 [] 6).result =
      CreateOutcome.runtimeError "Failed to create collection" :=
  ⟨(c10_no_exception_propagation mongoCreate badAuthOracle props0 [] 5).1
      2 0 0 [] "boom",
   (c10_no_exception_propagation mongoCreate badAuthOracle props0 [] 5).2
      6 5 [0, 1, 2, 3, 4] (by decide) (by decide) (by decide)⟩

/-- C6: when the database or the collection name is missing or empty,
create raises ValueError (the caller-bug error class, distinct from the
RuntimeError constructors used for remote failures) with zero connection
attempts, zero clients opened and zero remote calls, leaving the remote
state untouched. -/
theorem c6_invalid_spec_fast_fail
    (remote : String → String → RemoteState → CmdOutcome × RemoteState)
    (oracle : Nat → AttemptOutcome) (props : Props) (st : RemoteState)
    (fuel : Nat)
    (h : strFalsy props.db = true ∨ strFalsy props.coll = true) :
    create remote oracle props st fuel =
      { result := CreateOutcome.valueError
          "Database name and collection name must be provided.",
        attempts := 0, opened := [], closed := [], remoteCalls := 0,
        state := st } := by
  rcases h with h | h <;> simp [create, h]

/-- C6 witness: a props dictionary with no database name fails fast. -/
theorem c6_invalid_spec_fast_fail_witness :
    strFalsy ({ props0 with db := none } : Props).db = true ∧
    create mongoCreate okOracle { props0 with db := none } [] 3 =
      { result := CreateOutcome.valueError
          "Database name and collection name must be provided.",
        attempts := 0, opened := [], closed := [], remoteCalls := 0,
        state := [] } :=
  ⟨by decide,
   c6_invalid_spec_fast_fail mongoCreate okOracle { props0 with db := none }
     [] 3 (Or.inl (by decide))⟩

/-- C5 counterexample: running create twice against the same resource
returns the same CreateResult both times — the source builds the
identical result on the success path (line 147) and on the already
exists path (line 152), so the two outcomes are not distinguishable, and
neither the provider nor its caller observes a Created versus
AlreadyExists distinction. -/
theorem c5_results_not_distinguishable :
    (create mongoCreate okOracle props0 [] 1).result =
      (create mongoCreate okOracle props0
        (create mongoCreate okOracle props0 [] 1).state 1).result ∧
    (create mongoCreate okOracle props0 [] 1).result =
      CreateOutcome.ok "ww.facts" props0 ∧
    (create mongoCreate okOracle props0 [] 1).state = [("ww", "facts")] ∧
    (create mongoCreate okOracle props0
      (create mongoCreate okOracle props0 [] 1).state 1).state =
      [("ww", "facts")] := by decide

/-- C5 amended: running create twice against the same resource succeeds
both times with the identical CreateResult — the already exists reply of
the second call is treated as success, not as an error — and the
observable remote state is identical after both calls; the code does not
distinguish the two results. -/
theorem c5_idempotent_create (oracle : Nat → AttemptOutcome) (props : Props)
    (st : RemoteState) (fuel : Nat)
    (hdb : strFalsy props.db = false) (hcoll : strFalsy props.coll = false)
    (hok : oracle 0 = .ok) (hfuel : 1 ≤ fuel)
    (hnew : (props.db.getD "", props.coll.getD "") ∉ st) :
    (create mongoCreate oracle props st fuel).result =
      CreateOutcome.ok (props.db.getD "" ++ "." ++ props.coll.getD "") props ∧
    (create mongoCreate oracle props st fuel).state =
      st ++ [(props.db.getD "", props.coll.getD "")] ∧
    (create mongoCreate oracle props
        (create mongoCreate oracle props st fuel).state fuel).result =
      (create mongoCreate oracle props st fuel).result ∧
    (create mongoCreate oracle props
        (create mongoCreate oracle props st fuel).state fuel).state =
      (create mongoCreate oracle props st fuel).state := by
  obtain ⟨f, rfl⟩ : ∃ f, fuel = f + 1 := ⟨fuel - 1, by omega⟩
  have hcw : connect_with_retry oracle (f + 1) =
      (ConnectResult.returned (some 0), 1, [0]) := by
    simp [connect_with_retry, connectLoop, hok]
  have hmc1 : mongoCreate (props.db.getD "") (props.coll.getD "") st =
      (CmdOutcome.ok, st ++ [(props.db.getD "", props.coll.getD "")]) := by
    simp [mongoCreate, hnew]
  have h1 : create mongoCreate oracle props st (f + 1) =
      { result := CreateOutcome.ok
          (props.db.getD "" ++ "." ++ props.coll.getD "") props,
        attempts := 1, opened := [0], closed := [0, 0], remoteCalls := 1,
        state := st ++ [(props.db.getD "", props.coll.getD "")] } := by
    simp [create, hdb, hcoll, hcw, hmc1]
  have hmem : (props.db.getD "", props.coll.getD "") ∈
      st ++ [(props.db.getD "", props.coll.getD "")] := by simp
  have hmc2 : mongoCreate (props.db.getD "") (props.coll.getD "")
      (st ++ [(props.db.getD "", props.coll.getD "")]) =
      (CmdOutcome.opFailure ("Collection " ++ props.db.getD "" ++ "." ++
          props.coll.getD "" ++ " already exists."),
        st ++ [(props.db.getD "", props.coll.getD "")]) := by
    simp [mongoCreate, hmem]
  have hsub : containsSub "already exists" ("Collection " ++ props.db.getD ""
      ++ "." ++ props.coll.getD "" ++ " already exists.") = true := by
    unfold containsSub
    rw [String.data_append]
    exact charsOccur_append_right _ _ _ (by decide)
  have h2 : create mongoCreate oracle props
      (st ++ [(props.db.getD "", props.coll.getD "")]) (f + 1) =
      { result := CreateOutcome.ok
          (props.db.getD "" ++ "." ++ props.coll.getD "") props,
        attempts := 1, opened := [0], closed := [0], remoteCalls := 1,
        state := st ++ [(props.db.getD "", props.coll.getD "")] } := by
    simp [create, hdb, hcoll, hcw, hmc2, hsub]
  rw [h1, h2]
  exact ⟨rfl, rfl, rfl, rfl⟩

/-- C5 witness: the amended idempotence at the concrete plan props. -/
theorem c5_idempotent_create_witness :
    (create mongoCreate okOracle props0 [] 1).result =
      CreateOutcome.ok (props0.db.getD "" ++ "." ++ props0.coll.getD "")
        props0 ∧
    (create mongoCreate okOracle props0 [] 1).state =
      [] ++ [(props0.db.getD "", props0.coll.getD "")] ∧
    (create mongoCreate okOracle props0
        (create mongoCreate okOracle props0 [] 1).state 1).result =
      (create mongoCreate okOracle props0 [] 1).result ∧
    (create mongoCreate okOracle props0
        (create mongoCreate okOracle props0 [] 1).state 1).state =
      (create mongoCreate okOracle props0 [] 1).state :=
  c5_idempotent_create okOracle props0 [] 1 (by decide) (by decide)
    (by decide) (by decide) (by decide)

/-- C7 counterexample: with one bad auth failure followed by success, the
operation returns successfully while the client opened by the failed
attempt (client 0) was never closed — the finally clause of create only
closes the client the loop returned, and the loop itself closes nothing
(lines 82-90). -/
theorem c7_unreleased_session :
    0 ∈ (create mongoCreate badAuthThenOk props0 [] 10).opened ∧
    0 ∉ (create mongoCreate badAuthThenOk props0 [] 10).closed ∧
    (create mongoCreate badAuthThenOk props0 [] 10).result =
      CreateOutcome.ok "ww.facts" props0 := by decide

/-- C7 amended: the client that the connect routine returns is closed
before create returns on every exit path — success, already exists skip,
and each error path of the command — though clients opened by failed
attempts inside the retry loop are not. -/
theorem c7_returned_client_closed
    (remote : String → String → RemoteState → CmdOutcome × RemoteState)
    (oracle : Nat → AttemptOutcome) (props : Props) (st : RemoteState)
    (fuel c n : Nat) (op : List Nat)
    (hdb : strFalsy props.db = false) (hcoll : strFalsy props.coll = false)
    (hcw : connect_with_retry oracle fuel =
      (ConnectResult.returned (some c), n, op)) :
    c ∈ (create remote oracle props st fuel).closed := by
  rcases hr : remote (props.db.getD "") (props.coll.getD "") st with ⟨outc, st2⟩
  cases outc with
  | ok => simp [create, hdb, hcoll, hcw, hr]
  | opFailure msg =>
    by_cases hs : containsSub "already exists" msg = true
    · simp [create, hdb, hcoll, hcw, hr, hs]
    · have hs' : containsSub "already exists" msg = false := by simpa using hs
      simp [create, hdb, hcoll, hcw, hr, hs']
  | pyMongoError msg => simp [create, hdb, hcoll, hcw, hr]

/-- C7 amended witness: the returned client 0 is closed on the success
path of the concrete run. -/
theorem c7_returned_client_closed_witness :
    0 ∈ (create mongoCreate okOracle props0 [] 1).closed :=
  c7_returned_client_closed mongoCreate okOracle props0 [] 1 0 1 [0]
    (by decide) (by decide) (by decide)

/-- In a valid trace, the event in the middle satisfies the dependency
check against everything before it. -/
theorem validFrom_middle (l1 l2 : List Event) (e : Event) :
    ∀ done, validFrom done (l1 ++ e :: l2) = true →
      (deps e.node).all (okBefore (done ++ l1)) = true := by
  induction l1 with
  | nil =>
    intro done h
    simp only [List.nil_append, validFrom, Bool.and_eq_true] at h
    simpa using h.1
  | cons x xs ih =>
    intro done h
    simp only [List.cons_append, validFrom, Bool.and_eq_true] at h
    have := ih (done ++ [x]) h.2
    rwa [List.append_assoc, List.singleton_append] at this

/-- C3: in every valid run of the plan, a creation event happens only
after every dependency predecessor has reached terminal success: the
cluster precedes the user; the user, the access entry (and the cluster)
precede the collection creation; the collection (and the access entry
and cluster) precede the search-index creation. -/
theorem c3_dependency_order (t pre post : List Event) (e : Event)
    (hv : validTrace t = true) (ht : t = pre ++ e :: post) :
    (e.node = Node.user → okBefore pre Node.cluster = true)
  ∧ (e.node = Node.collection →
      okBefore pre Node.user = true ∧ okBefore pre Node.accessEntry = true ∧
      okBefore pre Node.cluster = true)
  ∧ (e.node = Node.searchIndex →
      okBefore pre Node.collection = true ∧ okBefore pre Node.accessEntry = true ∧
      okBefore pre Node.cluster = true) := by
  subst ht
  simp only [validTrace] at hv
  have h := validFrom_middle pre post e [] hv
  simp only [List.nil_append] at h
  refine ⟨?_, ?_, ?_⟩ <;> intro hn <;> rw [hn] at h <;>
    simp [deps, Bool.and_eq_true] at h <;> tauto

/-- C3 witness: in the concrete valid run of the whole plan, the
search-index event is preceded by successful collection, access entry
and cluster events. -/
theorem c3_dependency_order_witness :
    okBefore [⟨Node.cluster, true⟩, ⟨Node.accessEntry, true⟩,
        ⟨Node.user, true⟩, ⟨Node.collection, true⟩] Node.collection = true ∧
    okBefore [⟨Node.cluster, true⟩, ⟨Node.accessEntry, true⟩,
        ⟨Node.user, true⟩, ⟨Node.collection, true⟩] Node.accessEntry = true ∧
    okBefore [⟨Node.cluster, true⟩, ⟨Node.accessEntry, true⟩,
        ⟨Node.user, true⟩, ⟨Node.collection, true⟩] Node.cluster = true :=
  (c3_dependency_order
    [⟨Node.cluster, true⟩, ⟨Node.accessEntry, true⟩, ⟨Node.user, true⟩,
      ⟨Node.collection, true⟩, ⟨Node.searchIndex, true⟩]
    [⟨Node.cluster, true⟩, ⟨Node.accessEntry, true⟩, ⟨Node.user, true⟩,
      ⟨Node.collection, true⟩]
    [] ⟨Node.searchIndex, true⟩ (by decide) rfl).2.2 rfl

/-- C4: when the collection node fails — its command raised an
OperationFailure that is not the already exists signal, so
create_mongodb_collection reports False — the search-index lambda yields
None: the SearchIndex resource is never constructed (the provider is
never invoked for the node) and the node ends in the skipped terminal
state, registering nothing. -/
theorem c4_cascade_skip (msg : String)
    (hfail : containsSub "already exists" msg = false) :
    create_mongodb_collection (MainCmdOutcome.opFailure msg) = false ∧
    search_index (create_mongodb_collection (MainCmdOutcome.opFailure msg)) =
      none := by
  have h : create_mongodb_collection (MainCmdOutcome.opFailure msg) = false := by
    simp [create_mongodb_collection, hfail]
  exact ⟨h, by rw [h]; simp [search_index]⟩

/-- C4 witness: a concrete failed collection command cascades into a
skipped search-index node. -/
theorem c4_cascade_skip_witness :
    search_index (create_mongodb_collection
      (MainCmdOutcome.opFailure "not authorized on ww to execute command")) =
      none :=
  (c4_cascade_skip "not authorized on ww to execute command" (by decide)).2

/-- C8 counterexample: when the search-index status is FAILED (or any
non-STEADY value), the top-level program emits nothing at all — no
PlanIncomplete error, no report naming the failed node; the failure
outcome is silently omitted. -/
theorem c8_silent_on_failure :
    export_message "FAILED" "vector-index" = none ∧
    export_message "PENDING" "vector-index" = none := by decide

/-- C8 amended: the top-level caller receives the readiness message
exactly when the search-index status is STEADY; on any other status the
program emits nothing — there is no PlanIncomplete error and no report
naming failed or skipped nodes. -/
theorem c8_steady_gated (status name : String) :
    (export_message status name).isSome = true ↔ status = "STEADY" := by
  cases hsb : status == "STEADY" with
  | false =>
    have hne : ¬status = "STEADY" := by
      intro h; rw [h] at hsb; simp at hsb
    simp [export_message, hsb, hne]
  | true =>
    have heq : status = "STEADY" := eq_of_beq hsb
    simp [export_message, hsb, heq]

/-- Every poll inside the budget sees Building, so the loop times out. -/
theorem pollLoop_building (statusAt : Nat → IndexStatus) (p : Nat) :
    ∀ fuel t0, (∀ k, k < fuel → statusAt (t0 + k * p) = IndexStatus.building) →
      pollLoop statusAt p fuel t0 = PollResult.readinessTimeout := by
  intro fuel
  induction fuel with
  | zero => intro t0 _; rfl
  | succ f ih =>
    intro t0 h
    have h0 : statusAt t0 = IndexStatus.building := by simpa using h 0 (by omega)
    have hrec := ih (t0 + p) (fun k hk => by
      have := h (k + 1) (by omega)
      rwa [show t0 + (k + 1) * p = t0 + p + k * p by ring] at this)
    simp [pollLoop, h0, hrec]

/-- C9: when the status remains Building throughout the timeout window,
waitForSteady returns ReadinessTimeout, an outcome distinct from the
Failed result reserved for a remote build failure. -/
theorem c9_readiness_timeout (statusAt : Nat → IndexStatus)
    (timeout pollInterval : Nat)
    (h : ∀ t, t ≤ timeout → statusAt t = IndexStatus.building) :
    waitForSteady statusAt timeout pollInterval = PollResult.readinessTimeout ∧
    PollResult.readinessTimeout ≠ PollResult.failed := by
  refine ⟨?_, by simp⟩
  unfold waitForSteady
  apply pollLoop_building
  intro k hk
  apply h
  have hk' : k ≤ timeout / pollInterval := by omega
  calc 0 + k * pollInterval = k * pollInterval := by omega
    _ ≤ (timeout / pollInterval) * pollInterval :=
        Nat.mul_le_mul_right _ hk'
    _ ≤ timeout := Nat.div_mul_le_self _ _

/-- C9 witness: an index that never leaves Building times out rather than
failing. -/
theorem c9_readiness_timeout_witness :
    waitForSteady alwaysBuilding 10 3 = PollResult.readinessTimeout ∧
    PollResult.readinessTimeout ≠ PollResult.failed :=
  c9_readiness_timeout alwaysBuilding 10 3 (fun _ _ => rfl)
